import Mathlib

/-!
Shallow embedding of `pwd/instance.go` from play-with-docker: the instance
lifecycle manager and the terminal-connection registry. External
collaborators (container engine, storage, event bus, metrics) are passed in
as explicit results/oracles; the process-wide `terms` registry is explicit
state. Go maps are modelled as association lists with unique keys (lookup
finds the first binding); Go `nil` results are `none`; a Go panic is
modelled by an `Option`-valued operation returning `none`.
-/

namespace PWD

/-- A live duplex terminal channel as stored in the process-wide `terms`
registry (a `net.Conn` in the source). The model tracks whether `Close` has
been called and the chunks successfully delivered by `Write`. -/
structure Conn where
  cid : Nat
  closed : Bool
  written : List String
deriving DecidableEq

/-- Effect of `conn.Close()` (used by `InstanceDelete`). -/
def Conn.close (c : Conn) : Conn := { c with closed := true }

/-- Effect of `conn.Write(p)` (used by `InstanceWriteToTerminal`): a write on
a closed channel delivers nothing (the Go error it returns is discarded by
the caller), otherwise the chunk is delivered. -/
def Conn.write (c : Conn) (data : String) : Conn :=
  if c.closed then c else { c with written := c.written ++ [data] }

/-- Lookup in an association-list map (Go map indexing; `none` is Go's
zero-value / `nil` for a missing key). -/
def lookupKey {α : Type} (k : String) : List (String × α) → Option α
  | [] => none
  | (k', v) :: rest => if k' = k then some v else lookupKey k rest

/-- Go map assignment `m[k] = v`: replace the binding if the key is present,
otherwise add it. -/
def insertKey {α : Type} (k : String) (v : α) : List (String × α) → List (String × α)
  | [] => [(k, v)]
  | (k', v') :: rest => if k' = k then (k, v) :: rest else (k', v') :: insertKey k v rest

/-- In-place mutation of the object stored at key `k` (Go conns are
references: mutating a conn obtained from the map mutates the stored one). -/
def updateKey {α : Type} (k : String) (f : α → α) : List (String × α) → List (String × α)
  | [] => []
  | (k', v') :: rest => if k' = k then (k', f v') :: rest else (k', v') :: updateKey k f rest

/-- The process-wide registry
`var terms = make(map[string]map[string]net.Conn)`. -/
abbrev TermsMap := List (String × List (String × Conn))

/-- The source's `getInstanceTermConn`: `terms[sessionId][instanceName]`,
where a missing outer or inner key yields Go's `nil` (`none` here). -/
def getInstanceTermConn (sessionId instanceName : String) (terms : TermsMap) : Option Conn :=
  match lookupKey sessionId terms with
  | none => none
  | some inner => lookupKey instanceName inner

/-- Registration step of `InstanceAttachTerminal` (lines 65-69 of the
source): if `terms[sessionId]` is nil install a fresh inner map holding only
this conn, else assign into the existing inner map. -/
def termsRegister (sessionId instanceName : String) (conn : Conn) (terms : TermsMap) : TermsMap :=
  match lookupKey sessionId terms with
  | none => insertKey sessionId [(instanceName, conn)] terms
  | some inner => insertKey sessionId (insertKey instanceName conn inner) terms

/-- Number of channels registered under `(sessionId, instanceName)`. -/
def countKey (sessionId instanceName : String) (terms : TermsMap) : Nat :=
  match lookupKey sessionId terms with
  | none => 0
  | some inner => inner.countP (fun e => e.1 == instanceName)

/-- Outcome of `InstanceAttachTerminal`: the updated registry, whether a new
relay copy loop (`io.Copy`) was started by this call, and the returned error
(`none` is Go's `nil`). -/
structure AttachOutcome where
  terms : TermsMap
  relayStarted : Bool
  result : Option String
deriving DecidableEq

/-- The source's `InstanceAttachTerminal`. `attachConn` is the container
engine's `CreateAttachConnection` result for this call. If a conn is already
registered for the key the call returns `nil` at once, registering nothing
and starting no relay. -/
def instanceAttachTerminal (attachConn : Except String Conn)
    (sessionId instanceName : String) (terms : TermsMap) : AttachOutcome :=
  match getInstanceTermConn sessionId instanceName terms with
  | some _ => { terms := terms, relayStarted := false, result := none }
  | none =>
    match attachConn with
    | Except.error e => { terms := terms, relayStarted := false, result := some e }
    | Except.ok conn =>
        { terms := termsRegister sessionId instanceName conn terms
          relayStarted := true
          result := none }

/-- The source's `InstanceWriteToTerminal`: look up the registry and write
only when a conn is registered and the payload is non-empty. The Go function
returns nothing, so no error can ever be surfaced; the model returns the
updated registry. -/
def instanceWriteToTerminal (sessionId instanceName data : String)
    (terms : TermsMap) : TermsMap :=
  match getInstanceTermConn sessionId instanceName terms with
  | some _ =>
      if 0 < data.length then
        updateKey sessionId (fun inner => updateKey instanceName (fun c => c.write data) inner) terms
      else terms
  | none => terms

/-- Model of Go's `strings.Contains`: does `sub` occur contiguously in `s`? -/
def containsSubstr (s sub : String) : Bool :=
  decide (List.IsInfix sub.data s.data)

/-- The engine's "container already gone" marker checked by
`InstanceDelete`. -/
def noSuchContainerMsg : String := "No such container"

/-- Outcome of `InstanceDelete`: registry after the call, whether the
`INSTANCE_DELETE` event was emitted, whether `storage.InstanceDelete`
succeeded, whether gauges were updated, and the returned error. -/
structure DeleteOutcome where
  terms : TermsMap
  eventEmitted : Bool
  storageRemoved : Bool
  gaugesUpdated : Bool
  result : Option String
deriving DecidableEq

/-- Tail of `InstanceDelete` after the engine call was accepted: emit the
deletion event, remove the persisted record (propagating its error), then
update gauges. -/
def deleteTail (storageErr : Option String) (terms1 : TermsMap) : DeleteOutcome :=
  match storageErr with
  | some e =>
      { terms := terms1, eventEmitted := true, storageRemoved := false
        gaugesUpdated := false, result := some e }
  | none =>
      { terms := terms1, eventEmitted := true, storageRemoved := true
        gaugesUpdated := true, result := none }

/-- Lines 170-173 of the source: look up the registered conn for the key
and, when present, close it. The registry entry itself is never removed. -/
def closeTermEntry (sessionId instanceName : String) (terms : TermsMap) : TermsMap :=
  match getInstanceTermConn sessionId instanceName terms with
  | some _ => updateKey sessionId (fun inner => updateKey instanceName Conn.close inner) terms
  | none => terms

/-- The source's `InstanceDelete`. `engineErr` is `docker.DeleteContainer`'s
result and `storageErr` is `storage.InstanceDelete`'s result (`none` =
success). The registered conn, when present, is closed — but its registry
entry is never removed. An engine error whose message does not contain
"No such container" is returned unchanged before the event/storage/gauge
steps. -/
def instanceDelete (engineErr storageErr : Option String)
    (sessionId instanceName : String) (terms : TermsMap) : DeleteOutcome :=
  let terms1 := closeTermEntry sessionId instanceName terms
  match engineErr with
  | some e =>
      if containsSubstr e noSuchContainerMsg then deleteTail storageErr terms1
      else
        { terms := terms1, eventEmitted := false, storageRemoved := false
          gaugesUpdated := false, result := some e }
  | none => deleteTail storageErr terms1

/-- Configuration bundle passed to `InstanceNew` (`InstanceConfig` in the
source). The Go field `Alias` is named `aliasName` here because `alias` is
taken by a library command. TLS blobs are opaque byte lists. -/
structure InstanceConfig where
  imageName : String
  aliasName : String
  hostname : String
  serverCert : List Nat
  serverKey : List Nat
  caCert : List Nat
  cert : List Nat
  key : List Nat
  host : String
deriving DecidableEq

/-- The `types.Instance` record as assembled by `InstanceNew`. The Go
back-reference `instance.Session` is represented identifier-style by
`sessionId` (the structural reference would be cyclic). -/
structure Instance where
  image : String
  ip : String
  sessionId : String
  name : String
  hostname : String
  aliasName : String
  cert : List Nat
  key : List Nat
  serverCert : List Nat
  serverKey : List Nat
  caCert : List Nat
  isDockerHost : Bool
deriving DecidableEq

/-- The `types.Session` fields this fragment touches: the id (whose first 8
characters prefix container names), the address copied into container
options, and the instance map keyed by container name. -/
structure Session where
  id : String
  pwdIpAddress : String
  instances : List (String × Instance)
deriving DecidableEq

/-- `docker.CreateContainerOpts` as assembled by `InstanceNew`. -/
structure CreateContainerOpts where
  image : String
  sessionId : String
  pwdIpAddress : String
  containerName : String
  hostname : String
  serverCert : List Nat
  serverKey : List Nat
  caCert : List Nat
  privileged : Bool
  hostFQDN : String
deriving DecidableEq

/-- Second entry of the allow-list in `InstanceAllowedImages`. -/
def overlayDevImage : String := "franela/dind:overlay2-dev"

/-- Third entry of the allow-list in `InstanceAllowedImages`. -/
def ucpImage : String := "franela/ucp:2.4.1"

/-- The source's `InstanceAllowedImages`. `config.GetDindImageName()` lives
in the repository's `config` package, outside this fragment; modelled from
the spec: the "configured base image" is threaded through explicitly as the
parameter `dindImage`. -/
def instanceAllowedImages (dindImage : String) : List String :=
  [dindImage, overlayDevImage, ucpImage]

/-- Go's `session.Id[:8]`: defined only when the id has at least 8
characters; on a shorter id the slice is out of range and the Go code
panics, modelled as `none`. -/
def sliceTo8 (s : String) : Option String :=
  if 8 ≤ s.length then some (String.mk (s.data.take 8)) else none

/-- Body of `checkHostnameExists` after the `session.Id[:8]` slice: does any
instance of the session carry the container name `{pre}_{hostname}`? -/
def checkHostnameExistsOk (session : Session) (pre hostname : String) : Bool :=
  session.instances.any (fun e => e.2.name == pre ++ "_" ++ hostname)

/-- The source's `checkHostnameExists`; `none` models the `session.Id[:8]`
panic on a session id shorter than 8 characters. -/
def checkHostnameExists (session : Session) (hostname : String) : Option Bool :=
  (sliceTo8 session.id).map (fun pre => checkHostnameExistsOk session pre hostname)

/-- Lines 208-210 of the source: an empty requested image is replaced by the
configured default image. -/
def effectiveImage (dindImage : String) (conf : InstanceConfig) : String :=
  if conf.imageName = "" then dindImage else conf.imageName

/-- `fmt.Sprintf("node%d", i)` from the hostname-allocation loop. -/
def nodeName (i : Nat) : String := "node" ++ Nat.repr i

/-- The hostname-allocation loop of `InstanceNew` (lines 215-221): starting
at `i`, return the first index whose `node{i}` container name is unused. The
Go loop is unbounded; `fuel` is a termination bound only, and
`exists_free_node` below shows the fuel used by `firstFreeNode` never runs
out. -/
def firstFreeNodeAux (session : Session) (pre : String) : Nat → Nat → Nat
  | 0, i => i
  | fuel + 1, i =>
      if checkHostnameExistsOk session pre (nodeName i) then
        firstFreeNodeAux session pre fuel (i + 1)
      else i

/-- Index allocated by the loop: the least `i ≥ 1` with `node{i}` unused. -/
def firstFreeNode (session : Session) (pre : String) : Nat :=
  firstFreeNodeAux session pre (session.instances.length + 1) 1

/-- Lines 213-223: the hostname finally used — the caller's when supplied,
otherwise the first free `node{N}`. -/
def allocatedHostname (session : Session) (conf : InstanceConfig) (pre : String) : String :=
  if conf.hostname = "" then nodeName (firstFreeNode session pre) else conf.hostname

/-- Line 224: `containerName := fmt.Sprintf("%s_%s", session.Id[:8], conf.Hostname)`. -/
def containerNameOf (session : Session) (conf : InstanceConfig) (pre : String) : String :=
  pre ++ "_" ++ allocatedHostname session conf pre

/-- The privilege loop of `InstanceNew` (lines 239-244): `opts.Privileged`
starts `false` and becomes `true` exactly when the effective image equals
one of the allow-listed images. -/
def privilegedFor (dindImage image : String) : Bool :=
  (instanceAllowedImages dindImage).any (fun imageName => image == imageName)

/-- The `docker.CreateContainerOpts` value assembled by `InstanceNew`
(lines 226-244), privilege loop already applied. -/
def createOpts (dindImage : String) (session : Session) (conf : InstanceConfig)
    (pre : String) : CreateContainerOpts :=
  { image := effectiveImage dindImage conf
    sessionId := session.id
    pwdIpAddress := session.pwdIpAddress
    containerName := containerNameOf session conf pre
    hostname := allocatedHostname session conf pre
    serverCert := conf.serverCert
    serverKey := conf.serverKey
    caCert := conf.caCert
    privileged := privilegedFor dindImage (effectiveImage dindImage conf)
    hostFQDN := conf.host }

/-- The `types.Instance` record built on lines 251-265; `IsDockerHost` is
copied from `opts.Privileged`. -/
def builtInstance (dindImage : String) (session : Session) (conf : InstanceConfig)
    (pre ip : String) : Instance :=
  { image := effectiveImage dindImage conf
    ip := ip
    sessionId := session.id
    name := containerNameOf session conf pre
    hostname := allocatedHostname session conf pre
    aliasName := conf.aliasName
    cert := conf.cert
    key := conf.key
    serverCert := conf.serverCert
    serverKey := conf.serverKey
    caCert := conf.caCert
    isDockerHost := privilegedFor dindImage (effectiveImage dindImage conf) }

/-- Outcome of `InstanceNew`: the session (with its possibly-extended
instance map), the returned value or error, whether the attach goroutine
was spawned, and whether the creation event and gauge update happened. -/
structure NewOutcome where
  session : Session
  result : Except String Instance
  attachSpawned : Bool
  eventEmitted : Bool
  gaugesUpdated : Bool

/-- Body of `InstanceNew` once the `session.Id[:8]` slice is known to be in
range: call the engine (`createResult` is `docker.CreateContainer`'s
result for given options), build and insert the instance, spawn the attach
goroutine, persist (`storageErr` is `storage.InstanceCreate`'s result; a
failure is returned with no rollback), then emit the creation event and
update gauges. -/
def instanceNewOk (dindImage : String)
    (createResult : CreateContainerOpts → Except String String)
    (storageErr : Option String) (session : Session) (conf : InstanceConfig)
    (pre : String) : NewOutcome :=
  match createResult (createOpts dindImage session conf pre) with
  | Except.error e =>
      { session := session, result := Except.error e, attachSpawned := false
        eventEmitted := false, gaugesUpdated := false }
  | Except.ok ip =>
      let inst := builtInstance dindImage session conf pre ip
      let session' := { session with instances := insertKey inst.name inst session.instances }
      match storageErr with
      | some e =>
          { session := session', result := Except.error e, attachSpawned := true
            eventEmitted := false, gaugesUpdated := false }
      | none =>
          { session := session', result := Except.ok inst, attachSpawned := true
            eventEmitted := true, gaugesUpdated := true }

/-- The source's `InstanceNew`. Both `session.Id[:8]` slice sites (inside
`checkHostnameExists` when the hostname is auto-allocated, line 224
otherwise) run before any observable effect, so the short-id panic is
hoisted to the front; a session id shorter than 8 characters yields `none`
(the call cannot complete normally) with no container created. -/
def instanceNew (dindImage : String)
    (createResult : CreateContainerOpts → Except String String)
    (storageErr : Option String) (session : Session) (conf : InstanceConfig) :
    Option NewOutcome :=
  match sliceTo8 session.id with
  | none => none
  | some pre => some (instanceNewOk dindImage createResult storageErr session conf pre)

/-- Separator used by `getInstanceCWD`'s `strings.Split(b.String(), ":")`. -/
def colonChar : Char := ':'

/-- Go's `strings.Split` for a one-character separator, on the character
list: the groups between separator occurrences (never empty as a list of
groups). -/
def splitChar (sep : Char) : List Char → List (List Char)
  | [] => [[]]
  | c :: rest =>
      match splitChar sep rest with
      | [] => [[c]]
      | g :: gs => if c = sep then [] :: g :: gs else (c :: g) :: gs

/-- Go's `strings.TrimSpace` on the character list: strip whitespace from
both ends. -/
def trimSpace (l : List Char) : List Char :=
  ((l.dropWhile Char.isWhitespace).reverse.dropWhile Char.isWhitespace).reverse

/-- Error message `fmt.Errorf("Error %d trying to get CWD", c)`. -/
def cwdErrMsg (c : Nat) : String :=
  "Error " ++ Nat.repr c ++ " trying to get CWD"

/-- The source's `getInstanceCWD`. `execExitCode` and `execErr` are
`docker.ExecAttach`'s results (exec exit codes are non-negative) and
`output` is what the remote command wrote to the buffer. The result `none`
models the panic of `strings.Split(b.String(), ":")[1]` when the output
contains no colon; otherwise the second colon-separated field is trimmed
and returned. -/
def getInstanceCWD (execExitCode : Nat) (execErr : Option String) (output : String) :
    Option (Except String String) :=
  if 0 < execExitCode then some (Except.error (cwdErrMsg execExitCode))
  else
    match execErr with
    | some e => some (Except.error e)
    | none =>
        match splitChar colonChar output.data with
        | _ :: part :: _ => some (Except.ok (String.mk (trimSpace part)))
        | _ => none

/-- Go's `filepath.IsAbs` on unix: the path starts with a slash. -/
def isAbsPath (p : String) : Bool :=
  p.data.take 1 == ['/']

/-- Error message of a failed `CopyToContainer` during upload. -/
def uploadErrMsg (fileName e : String) : String :=
  "Error while uploading file [" ++ fileName ++ "]. Error: " ++ e ++ "\n"

/-- Outcome of `InstanceUploadFromReader`: the destination handed to the
engine's `CopyToContainer` when the copy was attempted, and the call's
result — `none` models a panic escaping from `getInstanceCWD`, `some none`
a `nil` return, `some (some e)` an error return. -/
structure UploadOutcome where
  copyDest : Option String
  result : Option (Option String)
deriving DecidableEq

/-- The source's `InstanceUploadFromReader`. `copyErr` is
`docker.CopyToContainer`'s result: an absolute `dest` is used as is, a
relative one is resolved against the instance's working directory as
`{cwd}/{dest}`. -/
def instanceUploadFromReader (execExitCode : Nat) (execErr : Option String)
    (cwdOutput : String) (copyErr : Option String) (fileName dest : String) :
    UploadOutcome :=
  let copyStep : String → UploadOutcome := fun finalDest =>
    match copyErr with
    | some e => { copyDest := some finalDest, result := some (some (uploadErrMsg fileName e)) }
    | none => { copyDest := some finalDest, result := some none }
  if isAbsPath dest then copyStep dest
  else
    match getInstanceCWD execExitCode execErr cwdOutput with
    | none => { copyDest := none, result := none }
    | some (Except.error e) => { copyDest := none, result := some (some e) }
    | some (Except.ok cwd) => copyStep (cwd ++ "/" ++ dest)

/-- Most-significant-digit-first decimal digit list of `n`: the list built
by `Nat.toDigitsCore 10` (used to reason about `Nat.repr`, which renders
the `node{N}` hostnames). -/
def toDigitsMSB (n : Nat) : List Char :=
  if _h : n < 10 then [Nat.digitChar n]
  else toDigitsMSB (n / 10) ++ [Nat.digitChar (n % 10)]
decreasing_by exact Nat.div_lt_self (by omega) (by omega)

/-- Numeric value of a decimal digit character. -/
def digitVal (c : Char) : Nat := c.toNat - 48

/-- Decimal value of a most-significant-first digit list. -/
def decodeDigits (l : List Char) : Nat :=
  l.foldl (fun a c => 10 * a + digitVal c) 0

/-! Concrete inputs used by the witnesses and counterexamples below. -/

/-- A session id of 12 characters; its 8-character prefix is `aaaabbbb`. -/
def wSessionId : String := "aaaabbbbcccc"

/-- The 8-character prefix of `wSessionId`. -/
def wPre8 : String := "aaaabbbb"

/-- Container name of the sample instance `node1`. -/
def wName1 : String := "aaaabbbb_node1"

/-- Container name of the sample instance `node2`. -/
def wName2 : String := "aaaabbbb_node2"

/-- Container name of the sample instance `node4`. -/
def wName4 : String := "aaaabbbb_node4"

/-- A sample pre-existing instance with a given container name. -/
def wInstance (n : String) : Instance :=
  { image := "busybox", ip := "10.0.0.9", sessionId := wSessionId, name := n
    hostname := "h", aliasName := "", cert := [], key := [], serverCert := []
    serverKey := [], caCert := [], isDockerHost := false }

/-- A session holding instances `node1`, `node2` and `node4` (`node3` was
previously deleted) — the hostname-allocation example from the spec. -/
def wSession3 : Session :=
  { id := wSessionId, pwdIpAddress := "10.1.1.1"
    instances := [(wName1, wInstance wName1), (wName2, wInstance wName2),
                  (wName4, wInstance wName4)] }

/-- An empty session with a valid (length ≥ 8) id. -/
def wSessionEmpty : Session :=
  { id := wSessionId, pwdIpAddress := "10.1.1.1", instances := [] }

/-- A session whose id has fewer than 8 characters. -/
def wSessionShort : Session :=
  { id := "short", pwdIpAddress := "10.1.1.1", instances := [] }

/-- A configuration requesting nothing: default image, auto hostname. -/
def wConfAuto : InstanceConfig :=
  { imageName := "", aliasName := "", hostname := "", serverCert := []
    serverKey := [], caCert := [], cert := [], key := [], host := "" }

/-- A configuration requesting the allow-listed UCP image and an explicit
hostname. -/
def wConfUcp : InstanceConfig :=
  { wConfAuto with imageName := ucpImage, hostname := "master" }

/-- A sample configured default ("dind") image name. -/
def wDind : String := "franela/dind"

/-- The IP address handed back by the sample container engine. -/
def wIp : String := "10.0.0.1"

/-- A container engine whose `CreateContainer` always succeeds. -/
def wCreateOk : CreateContainerOpts → Except String String :=
  fun _ => Except.ok wIp

/-- An open sample terminal channel. -/
def wConn : Conn := { cid := 0, closed := false, written := [] }

/-- Session key of the sample registry entry. -/
def wSid : String := "sessionAAAA"

/-- Instance key of the sample registry entry. -/
def wIname : String := "inst1"

/-- A registry holding exactly one open channel under `(wSid, wIname)`. -/
def wTerms : TermsMap := [(wSid, [(wIname, wConn)])]

/-- An engine error carrying the "container already gone" marker. -/
def wErrNoSuch : String := "Error response from daemon: No such container: abc123"

/-- An engine error without the "container already gone" marker. -/
def wErrBoom : String := "engine exploded"

/-- A storage-layer error message. -/
def wStorageErr : String := "storage down"

/-- Sample remote output of the working-directory command. -/
def wCwdOut : String := "1234: /root"

/-- Sample remote output containing no colon (unparsable). -/
def wNoColon : String := "no colon here"

/-- Sample uploaded file name. -/
def wFileName : String := "file.txt"

/-- Sample relative upload destination. -/
def wDestRel : String := "data.txt"

/-- Sample terminal keystroke payload. -/
def wData : String := "ls -la"

/-- The empty payload. -/
def emptyStr : String := ""

/-- The working directory resolved from `wCwdOut`. -/
def wRoot : String := "/root"

/-- Boolean check that an upload outcome returned an error (used to state
the counterexample for the upload claim). -/
def uploadReturnedError (u : UploadOutcome) : Bool :=
  match u.result with
  | some (some _) => true
  | _ => false

/-! Association-list lemmas for the Go-map model. -/

/-- Looking up a key just assigned finds the assigned value. -/
theorem lookupKey_insertKey_self {α : Type} (k : String) (v : α) (l : List (String × α)) :
    lookupKey k (insertKey k v l) = some v := by
  induction l with
  | nil => simp [insertKey, lookupKey]
  | cons hd tl ih =>
      obtain ⟨k', v'⟩ := hd
      by_cases hk : k' = k
      · simp [insertKey, hk, lookupKey]
      · simp [insertKey, hk, lookupKey, ih]

/-- Mutating the object stored at `k` is seen by a later lookup of `k`. -/
theorem lookupKey_updateKey_self {α : Type} (k : String) (f : α → α) (l : List (String × α)) :
    lookupKey k (updateKey k f l) = (lookupKey k l).map f := by
  induction l with
  | nil => simp [updateKey, lookupKey]
  | cons hd tl ih =>
      obtain ⟨k', v'⟩ := hd
      by_cases hk : k' = k <;> simp [updateKey, lookupKey, hk, ih]

/-- Mutating the stored object with a function that fixes it is a no-op. -/
theorem updateKey_eq_of_lookup {α : Type} (k : String) (f : α → α) (l : List (String × α))
    (v : α) (hl : lookupKey k l = some v) (hf : f v = v) : updateKey k f l = l := by
  revert hl
  induction l with
  | nil => intro hl; simp [lookupKey] at hl
  | cons hd tl ih =>
      obtain ⟨k', v'⟩ := hd
      intro hl
      by_cases hk : k' = k
      · have hv : v' = v := by simpa [lookupKey, hk] using hl
        simp [updateKey, hk, hv, hf]
      · have hl' : lookupKey k tl = some v := by simpa [lookupKey, hk] using hl
        simp [updateKey, hk, ih hl']

/-- A key that lookup misses has no binding at all. -/
theorem countP_eq_zero_of_lookupKey_none {α : Type} (k : String) (l : List (String × α))
    (h : lookupKey k l = none) : l.countP (fun e => e.1 == k) = 0 := by
  revert h
  induction l with
  | nil => intro h; simp
  | cons hd tl ih =>
      obtain ⟨k', v'⟩ := hd
      intro h
      by_cases hk : k' = k
      · simp [lookupKey, hk] at h
      · have h' : lookupKey k tl = none := by simpa [lookupKey, hk] using h
        simp [List.countP_cons, hk, ih h']

/-- Assigning an absent key yields exactly one binding for it. -/
theorem countP_insertKey_absent {α : Type} (k : String) (v : α) (l : List (String × α))
    (h : lookupKey k l = none) : (insertKey k v l).countP (fun e => e.1 == k) = 1 := by
  revert h
  induction l with
  | nil => intro h; simp [insertKey]
  | cons hd tl ih =>
      obtain ⟨k', v'⟩ := hd
      intro h
      by_cases hk : k' = k
      · simp [lookupKey, hk] at h
      · have h' : lookupKey k tl = none := by simpa [lookupKey, hk] using h
        simp [insertKey, hk, List.countP_cons, ih h']

/-! Registry lemmas. -/

/-- After registration the channel is found under its key. -/
theorem getInstanceTermConn_termsRegister_self (sid name : String) (conn : Conn)
    (terms : TermsMap) :
    getInstanceTermConn sid name (termsRegister sid name conn terms) = some conn := by
  cases hsid : lookupKey sid terms with
  | none => simp [termsRegister, hsid, getInstanceTermConn, lookupKey_insertKey_self, lookupKey]
  | some inner => simp [termsRegister, hsid, getInstanceTermConn, lookupKey_insertKey_self]

/-- Registering under a key with no previous channel yields exactly one
registered channel for that key. -/
theorem countKey_termsRegister (sid name : String) (conn : Conn) (terms : TermsMap)
    (h : getInstanceTermConn sid name terms = none) :
    countKey sid name (termsRegister sid name conn terms) = 1 := by
  cases hsid : lookupKey sid terms with
  | none =>
      simp [termsRegister, hsid, countKey, lookupKey_insertKey_self, List.countP_cons]
  | some inner =>
      have hin : lookupKey name inner = none := by
        simpa [getInstanceTermConn, hsid] using h
      simp [termsRegister, hsid, countKey, lookupKey_insertKey_self,
        countP_insertKey_absent _ _ _ hin]

/-- Closing the registered channel keeps its (now closed) entry in place. -/
theorem getInstanceTermConn_closeTermEntry (sid name : String) (terms : TermsMap) (c : Conn)
    (h : getInstanceTermConn sid name terms = some c) :
    getInstanceTermConn sid name (closeTermEntry sid name terms) = some (Conn.close c) := by
  cases hsid : lookupKey sid terms with
  | none => simp [getInstanceTermConn, hsid] at h
  | some inner =>
      have hin : lookupKey name inner = some c := by
        simpa [getInstanceTermConn, hsid] using h
      simp [closeTermEntry, h, getInstanceTermConn, lookupKey_updateKey_self, hsid, hin]

/-- Every channel found after `closeTermEntry` is closed. -/
theorem closeTermEntry_closed (sid name : String) (terms : TermsMap) (c : Conn)
    (hc : getInstanceTermConn sid name (closeTermEntry sid name terms) = some c) :
    c.closed = true := by
  cases h0 : getInstanceTermConn sid name terms with
  | none =>
      rw [closeTermEntry, h0] at hc
      rw [h0] at hc
      exact absurd hc (by simp)
  | some c0 =>
      have h1 := getInstanceTermConn_closeTermEntry sid name terms c0 h0
      rw [h1] at hc
      have : c = Conn.close c0 := (Option.some.inj hc).symm
      simp [this, Conn.close]

/-- A write is a no-op whenever any channel registered for the key is
closed. -/
theorem instanceWriteToTerminal_eq_of_closed (sid name data : String) (terms : TermsMap)
    (h : ∀ c, getInstanceTermConn sid name terms = some c → c.closed = true) :
    instanceWriteToTerminal sid name data terms = terms := by
  cases hc : getInstanceTermConn sid name terms with
  | none => simp [instanceWriteToTerminal, hc]
  | some c =>
      have hcl := h c hc
      cases hsid : lookupKey sid terms with
      | none => simp [getInstanceTermConn, hsid] at hc
      | some inner =>
          have hin : lookupKey name inner = some c := by
            simpa [getInstanceTermConn, hsid] using hc
          have hw : Conn.write c data = c := by simp [Conn.write, hcl]
          have hinner : updateKey name (fun x => Conn.write x data) inner = inner :=
            updateKey_eq_of_lookup name _ inner c hin hw
          have houter :
              updateKey sid (fun inner => updateKey name (fun x => Conn.write x data) inner)
                terms = terms :=
            updateKey_eq_of_lookup sid _ terms inner hsid (by rw [hinner])
          simp [instanceWriteToTerminal, hc]
          intro _
          exact houter

/-- The registry returned by `InstanceDelete` is always exactly the one
produced by the close step: later steps never touch it. -/
theorem instanceDelete_terms (engineErr storageErr : Option String) (sid name : String)
    (terms : TermsMap) :
    (instanceDelete engineErr storageErr sid name terms).terms =
      closeTermEntry sid name terms := by
  cases engineErr with
  | none => cases storageErr <;> simp [instanceDelete, deleteTail]
  | some e =>
      by_cases hcontain : containsSubstr e noSuchContainerMsg <;>
        cases storageErr <;> simp [instanceDelete, deleteTail, hcontain]

/-! Decimal rendering: `Nat.repr` (which prints the `node{N}` hostnames) is
injective. -/

/-- Value of a decimal digit character produced by `Nat.digitChar`. -/
theorem digitVal_digitChar (n : Nat) (h : n < 10) : digitVal (Nat.digitChar n) = n := by
  interval_cases n <;> rfl

/-- While fuel remains, `Nat.toDigitsCore` prepends exactly the
most-significant-first digit list. -/
theorem toDigitsCore_eq_toDigitsMSB :
    ∀ (fuel n : Nat) (ds : List Char), 0 < fuel → n < 10 ^ fuel →
      Nat.toDigitsCore 10 fuel n ds = toDigitsMSB n ++ ds := by
  intro fuel
  induction fuel with
  | zero => intro n ds h; omega
  | succ f ih =>
      intro n ds _ hn
      rw [Nat.toDigitsCore]
      by_cases hdiv : n / 10 = 0
      · have hlt : n < 10 := by omega
        have hmod : n % 10 = n := Nat.mod_eq_of_lt hlt
        rw [toDigitsMSB]
        simp [hdiv, hlt, hmod]
      · have h10 : 10 ≤ n := by omega
        have hf : 0 < f := by
          by_contra hf0
          have hf1 : f = 0 := by omega
          subst hf1
          have : n < 10 := by simpa using hn
          omega
        have hn2 : n < 10 ^ f * 10 := by
          have hpow : (10 : Nat) ^ (f + 1) = 10 ^ f * 10 := pow_succ 10 f
          omega
        have hn' : n / 10 < 10 ^ f := (Nat.div_lt_iff_lt_mul (by omega)).mpr hn2
        rw [if_neg hdiv, ih (n / 10) (Nat.digitChar (n % 10) :: ds) hf hn']
        conv_rhs => rw [toDigitsMSB]
        simp [show ¬n < 10 by omega]

/-- Folding the digit values of `toDigitsMSB n` recovers `n`. -/
theorem foldl_toDigitsMSB :
    ∀ n a : Nat,
      (toDigitsMSB n).foldl (fun x c => 10 * x + digitVal c) a
        = a * 10 ^ (toDigitsMSB n).length + n := by
  intro n
  induction n using Nat.strong_induction_on with
  | _ n ih =>
      intro a
      by_cases h : n < 10
      · rw [toDigitsMSB]
        simp [h, List.foldl, digitVal_digitChar n h]
        omega
      · rw [toDigitsMSB]
        simp only [h, dite_false]
        rw [List.foldl_append]
        rw [ih (n / 10) (Nat.div_lt_self (by omega) (by omega)) a]
        simp [List.foldl, digitVal_digitChar _ (Nat.mod_lt n (by omega))]
        have hdm : 10 * (n / 10) + n % 10 = n := by omega
        calc 10 * (a * 10 ^ (toDigitsMSB (n / 10)).length + n / 10) + n % 10
            = a * (10 ^ (toDigitsMSB (n / 10)).length * 10) + (10 * (n / 10) + n % 10) := by
              ring
          _ = a * 10 ^ ((toDigitsMSB (n / 10)).length + 1) + n := by
              rw [hdm, pow_succ]

/-- Decoding inverts `toDigitsMSB`. -/
theorem decodeDigits_toDigitsMSB (n : Nat) : decodeDigits (toDigitsMSB n) = n := by
  have h := foldl_toDigitsMSB n 0
  simpa [decodeDigits] using h

/-- `toDigitsMSB` is injective. -/
theorem toDigitsMSB_injective : Function.Injective toDigitsMSB := by
  intro m n h
  have hm := decodeDigits_toDigitsMSB m
  rw [h, decodeDigits_toDigitsMSB] at hm
  exact hm.symm

/-- `Nat.toDigits 10` computes the most-significant-first digit list. -/
theorem natToDigits_eq_toDigitsMSB (n : Nat) : Nat.toDigits 10 n = toDigitsMSB n := by
  rw [Nat.toDigits]
  have h2 : n < 10 ^ (n + 1) :=
    lt_of_lt_of_le (Nat.lt_pow_self (by omega) n)
      (Nat.pow_le_pow_right (by omega) (Nat.le_succ n))
  rw [toDigitsCore_eq_toDigitsMSB (n + 1) n [] (Nat.succ_pos n) h2]
  simp

/-- Decimal rendering of naturals is injective. -/
theorem natRepr_injective : Function.Injective Nat.repr := by
  intro m n h
  apply toDigitsMSB_injective
  have hm : (Nat.repr m).data = (Nat.repr n).data := by rw [h]
  simpa [Nat.repr, List.asString, natToDigits_eq_toDigitsMSB] using hm

/-- Appending to a fixed string on the left is injective. -/
theorem stringAppend_left_cancel {s a b : String} (h : s ++ a = s ++ b) : a = b := by
  apply String.ext
  have hd := congrArg String.data h
  simp only [String.data_append] at hd
  exact List.append_cancel_left hd

/-- The `node{i}` hostnames are pairwise distinct. -/
theorem nodeName_injective : Function.Injective nodeName := by
  intro i j h
  simp only [nodeName] at h
  exact natRepr_injective (stringAppend_left_cancel h)

/-- The `{pre}_node{i}` container names are pairwise distinct. -/
theorem prefixedNodeName_injective (pre : String) :
    Function.Injective (fun j => pre ++ "_" ++ nodeName j) := by
  intro i j h
  simp only at h
  exact nodeName_injective (stringAppend_left_cancel h)

/-! The hostname-allocation loop: the fuel given to `firstFreeNodeAux` by
`firstFreeNode` always suffices, and the index found is the least free one. -/

/-- Pigeonhole: a session with `k` instances cannot use all of
`node1 … node(k+1)`, so a free index exists within the loop's fuel. -/
theorem exists_free_node (session : Session) (pre : String) :
    ∃ j, 1 ≤ j ∧ j ≤ session.instances.length + 1 ∧
      checkHostnameExistsOk session pre (nodeName j) = false := by
  by_contra hcon
  push_neg at hcon
  have hused : ∀ j, 1 ≤ j → j ≤ session.instances.length + 1 →
      (pre ++ "_" ++ nodeName j) ∈ session.instances.map (fun e => e.2.name) := by
    intro j h1 h2
    cases hb : checkHostnameExistsOk session pre (nodeName j) with
    | false => exact absurd hb (hcon j h1 h2)
    | true =>
        rw [checkHostnameExistsOk, List.any_eq_true] at hb
        obtain ⟨e, he, heq⟩ := hb
        have hname : e.2.name = pre ++ "_" ++ nodeName j := by
          exact of_decide_eq_true heq
        exact List.mem_map.mpr ⟨e, he, hname⟩
  have hsub : (Finset.Icc 1 (session.instances.length + 1)).image
        (fun j => pre ++ "_" ++ nodeName j) ⊆
      (session.instances.map (fun e => e.2.name)).toFinset := by
    intro x hx
    rw [Finset.mem_image] at hx
    obtain ⟨j, hj, rfl⟩ := hx
    rw [Finset.mem_Icc] at hj
    rw [List.mem_toFinset]
    exact hused j hj.1 hj.2
  have hcard1 : ((Finset.Icc 1 (session.instances.length + 1)).image
      (fun j => pre ++ "_" ++ nodeName j)).card = session.instances.length + 1 := by
    rw [Finset.card_image_of_injective _ (prefixedNodeName_injective pre), Nat.card_Icc]
    omega
  have hcard2 : (session.instances.map (fun e => e.2.name)).toFinset.card ≤
      session.instances.length := by
    have h := List.toFinset_card_le (l := session.instances.map (fun e => e.2.name))
    simpa using h
  have hle := Finset.card_le_card hsub
  omega

/-- Correctness of the allocation loop given a free index within fuel: the
returned index is free and all smaller indices from the start are used. -/
theorem firstFreeNodeAux_spec (session : Session) (pre : String) :
    ∀ fuel i : Nat,
      (∃ j, i ≤ j ∧ j < i + fuel ∧ checkHostnameExistsOk session pre (nodeName j) = false) →
      checkHostnameExistsOk session pre (nodeName (firstFreeNodeAux session pre fuel i)) = false ∧
      i ≤ firstFreeNodeAux session pre fuel i ∧
      ∀ m, i ≤ m → m < firstFreeNodeAux session pre fuel i →
        checkHostnameExistsOk session pre (nodeName m) = true := by
  intro fuel
  induction fuel with
  | zero =>
      intro i h
      obtain ⟨j, h1, h2, _⟩ := h
      omega
  | succ f ih =>
      intro i h
      obtain ⟨j, h1, h2, hfree⟩ := h
      rw [firstFreeNodeAux]
      cases hu : checkHostnameExistsOk session pre (nodeName i) with
      | false =>
          simp only [Bool.false_eq_true, if_false]
          exact ⟨hu, Nat.le_refl i, fun m hm1 hm2 => by omega⟩
      | true =>
          simp only [if_true]
          have hji : j ≠ i := by
            intro hji
            rw [hji] at hfree
            rw [hfree] at hu
            exact Bool.false_ne_true hu
          have hex : ∃ j, i + 1 ≤ j ∧ j < (i + 1) + f ∧
              checkHostnameExistsOk session pre (nodeName j) = false :=
            ⟨j, by omega, by omega, hfree⟩
          obtain ⟨ha, hb, hc⟩ := ih (i + 1) hex
          refine ⟨ha, by omega, fun m hm1 hm2 => ?_⟩
          by_cases hmi : m = i
          · rw [hmi]; exact hu
          · exact hc m (by omega) hm2


/-- `firstFreeNode` returns the least index `N ≥ 1` whose `node{N}`
container name is unused in the session. -/
theorem firstFreeNode_least (session : Session) (pre : String) :
    checkHostnameExistsOk session pre (nodeName (firstFreeNode session pre)) = false ∧
    1 ≤ firstFreeNode session pre ∧
    ∀ m, 1 ≤ m → m < firstFreeNode session pre →
      checkHostnameExistsOk session pre (nodeName m) = true := by
  obtain ⟨j, h1, h2, h3⟩ := exists_free_node session pre
  exact firstFreeNodeAux_spec session pre (session.instances.length + 1) 1
    ⟨j, h1, by omega, h3⟩

/-- The privilege loop grants privilege exactly on allow-list membership. -/
theorem privilegedFor_iff (dindImage image : String) :
    privilegedFor dindImage image = true ↔ image ∈ instanceAllowedImages dindImage := by
  rw [privilegedFor, List.any_eq_true]
  constructor
  · rintro ⟨x, hx, hxe⟩
    have hxeq : image = x := of_decide_eq_true hxe
    rw [hxeq]
    exact hx
  · intro h
    exact ⟨image, h, by simp⟩

/-! The claims. -/

/-- Claim C1: for every call to `InstanceNew`, the created instance's
`IsDockerHost` flag is true iff the effective image reference (the requested
image, or the configured default image when none is requested) is exactly
equal to one of the fixed allow-listed images returned by
`InstanceAllowedImages`; for any other image the flag is false. -/
theorem C1_isDockerHost_iff_allowed (dindImage : String)
    (createResult : CreateContainerOpts → Except String String)
    (storageErr : Option String) (session : Session) (conf : InstanceConfig)
    (out : NewOutcome) (inst : Instance)
    (hout : instanceNew dindImage createResult storageErr session conf = some out)
    (hres : out.result = Except.ok inst) :
    inst.isDockerHost = true ↔
      effectiveImage dindImage conf ∈ instanceAllowedImages dindImage := by
  rw [instanceNew] at hout
  cases hpre : sliceTo8 session.id with
  | none => rw [hpre] at hout; exact absurd hout (by simp)
  | some pre =>
      rw [hpre] at hout
      have h := (Option.some.inj hout).symm
      rw [instanceNewOk] at h
      cases hcr : createResult (createOpts dindImage session conf pre) with
      | error e =>
          rw [hcr] at h
          rw [h] at hres
          exact absurd hres (by simp)
      | ok ip =>
          rw [hcr] at h
          cases hst : storageErr with
          | some e =>
              rw [hst] at h
              rw [h] at hres
              exact absurd hres (by simp)
          | none =>
              rw [hst] at h
              rw [h] at hres
              have hb : builtInstance dindImage session conf pre ip = inst := by
                simpa using hres
              rw [← hb]
              have : (builtInstance dindImage session conf pre ip).isDockerHost
                  = privilegedFor dindImage (effectiveImage dindImage conf) := rfl
              rw [this]
              exact privilegedFor_iff dindImage (effectiveImage dindImage conf)

/-- Witness for C1: creating with the allow-listed UCP image yields an
instance with `isDockerHost = true`. -/
theorem C1_witness :
    (builtInstance wDind wSessionEmpty wConfUcp wPre8 wIp).isDockerHost = true :=
  (C1_isDockerHost_iff_allowed wDind wCreateOk none wSessionEmpty wConfUcp
      (instanceNewOk wDind wCreateOk none wSessionEmpty wConfUcp wPre8)
      (builtInstance wDind wSessionEmpty wConfUcp wPre8 wIp)
      (by rfl) (by rfl)).mpr (by decide)

/-- Counterexample to claim C2 as stated: a successful `InstanceDelete`
(result `nil`) leaves the Connection Registry still holding a channel entry
for the deleted (session id, instance name) key — the source closes the conn
but never deletes the map entry. -/
theorem C2_counterexample :
    (instanceDelete none none wSid wIname wTerms).result = none ∧
    (getInstanceTermConn wSid wIname
      (instanceDelete none none wSid wIname wTerms).terms).isSome = true := by
  exact ⟨rfl, rfl⟩

/-- Claim C2 as amended: after a successful `InstanceDelete` for a key whose
channel was registered, the registry entry is not removed — it still holds
the channel, now closed. -/
theorem C2_delete_keeps_closed_entry (engineErr storageErr : Option String)
    (sid name : String) (terms : TermsMap) (c : Conn)
    (_hres : (instanceDelete engineErr storageErr sid name terms).result = none)
    (hc : getInstanceTermConn sid name terms = some c) :
    getInstanceTermConn sid name (instanceDelete engineErr storageErr sid name terms).terms
      = some (Conn.close c) := by
  rw [instanceDelete_terms]
  exact getInstanceTermConn_closeTermEntry sid name terms c hc

/-- Witness for the amended C2. -/
theorem C2_witness :
    getInstanceTermConn wSid wIname (instanceDelete none none wSid wIname wTerms).terms
      = some (Conn.close wConn) :=
  C2_delete_keeps_closed_entry none none wSid wIname wTerms wConn (by rfl) (by rfl)

/-- Claim C3: for every session and every `InstanceNew` call with an omitted
hostname, the allocated hostname is `node{N}` for the smallest `N ≥ 1` such
that no existing instance of the session carries the container name
`{first 8 chars of session id}_node{N}`. -/
theorem C3_auto_hostname_least (session : Session) (conf : InstanceConfig) (pre : String)
    (_hpre : sliceTo8 session.id = some pre) (hauto : conf.hostname = "") :
    allocatedHostname session conf pre = nodeName (firstFreeNode session pre) ∧
    1 ≤ firstFreeNode session pre ∧
    checkHostnameExistsOk session pre (nodeName (firstFreeNode session pre)) = false ∧
    ∀ m, 1 ≤ m → m < firstFreeNode session pre →
      checkHostnameExistsOk session pre (nodeName m) = true := by
  obtain ⟨h1, h2, h3⟩ := firstFreeNode_least session pre
  exact ⟨by simp [allocatedHostname, hauto], h2, h1, h3⟩

/-- Witness for C3, the spec's example: existing instances `node1`, `node2`,
`node4` (node3 previously deleted) — the next auto-allocated hostname is
`node3`. -/
theorem C3_witness :
    allocatedHostname wSession3 wConfAuto wPre8 = nodeName (firstFreeNode wSession3 wPre8) ∧
    firstFreeNode wSession3 wPre8 = 3 ∧
    allocatedHostname wSession3 wConfAuto wPre8 = "node3" :=
  ⟨(C3_auto_hostname_least wSession3 wConfAuto wPre8 (by rfl) (by rfl)).1, by rfl, by rfl⟩

/-- Claim C4: `InstanceAttachTerminal` is idempotent — when a channel is
already registered for the key, a further attach returns success immediately
with no state change and no second relay loop; attaching twice from an
unattached state leaves exactly one registered channel. -/
theorem C4_attach_idempotent (sid name : String) (terms : TermsMap)
    (r r2 : Except String Conn) (c conn : Conn) :
    (getInstanceTermConn sid name terms = some c →
      instanceAttachTerminal r sid name terms =
        { terms := terms, relayStarted := false, result := none }) ∧
    (getInstanceTermConn sid name terms = none → r = Except.ok conn →
      (instanceAttachTerminal r sid name terms).relayStarted = true ∧
      countKey sid name (instanceAttachTerminal r2 sid name
        (instanceAttachTerminal r sid name terms).terms).terms = 1 ∧
      (instanceAttachTerminal r2 sid name
        (instanceAttachTerminal r sid name terms).terms).relayStarted = false ∧
      (instanceAttachTerminal r2 sid name
        (instanceAttachTerminal r sid name terms).terms).result = none) := by
  constructor
  · intro hc
    simp [instanceAttachTerminal, hc]
  · intro hn hr
    subst hr
    have h1 : instanceAttachTerminal (Except.ok conn) sid name terms =
        { terms := termsRegister sid name conn terms, relayStarted := true
          result := none } := by
      simp [instanceAttachTerminal, hn]
    rw [h1]
    have hreg := getInstanceTermConn_termsRegister_self sid name conn terms
    refine ⟨rfl, ?_, ?_, ?_⟩
    · simp [instanceAttachTerminal, hreg]
      exact countKey_termsRegister sid name conn terms hn
    · simp [instanceAttachTerminal, hreg]
    · simp [instanceAttachTerminal, hreg]

/-- Witness for C4: attaching twice on an empty registry leaves exactly one
registered channel. -/
theorem C4_witness :
    countKey wSid wIname (instanceAttachTerminal (Except.ok wConn) wSid wIname
      (instanceAttachTerminal (Except.ok wConn) wSid wIname []).terms).terms = 1 :=
  ((C4_attach_idempotent wSid wIname [] (Except.ok wConn) (Except.ok wConn) wConn wConn).2
    (by rfl) rfl).2.1

/-- Claim C5: when the engine reports the container as already gone
(`DeleteContainer` error containing "No such container"), `InstanceDelete`
still succeeds — the error is swallowed, the deletion event is emitted, the
persisted record is removed, gauges update, and `nil` is returned. -/
theorem C5_delete_swallows_no_such_container (e sid name : String) (terms : TermsMap)
    (he : containsSubstr e noSuchContainerMsg = true) :
    (instanceDelete (some e) none sid name terms).result = none ∧
    (instanceDelete (some e) none sid name terms).eventEmitted = true ∧
    (instanceDelete (some e) none sid name terms).storageRemoved = true ∧
    (instanceDelete (some e) none sid name terms).gaugesUpdated = true := by
  simp [instanceDelete, he, deleteTail]

/-- Witness for C5. -/
theorem C5_witness :
    (instanceDelete (some wErrNoSuch) none wSid wIname wTerms).result = none :=
  (C5_delete_swallows_no_such_container wErrNoSuch wSid wIname wTerms (by decide)).1

/-- Claim C6: any other engine delete error is returned unchanged and aborts
the remaining steps — no deletion event, no storage removal, no gauge
update. -/
theorem C6_delete_engine_error_aborts (e sid name : String) (storageErr : Option String)
    (terms : TermsMap) (he : containsSubstr e noSuchContainerMsg = false) :
    (instanceDelete (some e) storageErr sid name terms).result = some e ∧
    (instanceDelete (some e) storageErr sid name terms).eventEmitted = false ∧
    (instanceDelete (some e) storageErr sid name terms).storageRemoved = false ∧
    (instanceDelete (some e) storageErr sid name terms).gaugesUpdated = false := by
  simp [instanceDelete, he]

/-- Witness for C6. -/
theorem C6_witness :
    (instanceDelete (some wErrBoom) (some wStorageErr) wSid wIname wTerms).result
      = some wErrBoom :=
  (C6_delete_engine_error_aborts wErrBoom wSid wIname (some wStorageErr) wTerms (by decide)).1

/-- Claim C7: `InstanceWriteToTerminal` never surfaces an error (the Go
function returns nothing): with no registered channel it is a silent no-op,
an empty payload is a no-op, and a write after a completed delete has no
observable effect (the remaining registered channel is closed). -/
theorem C7_write_silent (sid name data : String) (terms : TermsMap)
    (engineErr storageErr : Option String) :
    (getInstanceTermConn sid name terms = none →
      instanceWriteToTerminal sid name data terms = terms) ∧
    instanceWriteToTerminal sid name emptyStr terms = terms ∧
    ((instanceDelete engineErr storageErr sid name terms).result = none →
      instanceWriteToTerminal sid name data
          (instanceDelete engineErr storageErr sid name terms).terms
        = (instanceDelete engineErr storageErr sid name terms).terms) := by
  refine ⟨fun hn => by simp [instanceWriteToTerminal, hn], ?_, fun _ => ?_⟩
  · cases h : getInstanceTermConn sid name terms with
    | none => simp [instanceWriteToTerminal, h]
    | some c => simp [instanceWriteToTerminal, h, emptyStr]
  · rw [instanceDelete_terms]
    exact instanceWriteToTerminal_eq_of_closed sid name data _
      (closeTermEntry_closed sid name terms)

/-- Witness for C7: a write after a successful delete changes nothing. -/
theorem C7_witness :
    instanceWriteToTerminal wSid wIname wData (instanceDelete none none wSid wIname wTerms).terms
      = (instanceDelete none none wSid wIname wTerms).terms :=
  (C7_write_silent wSid wIname wData wTerms none none).2.2 (by rfl)

/-- Counterexample to claim C8 as stated: with exit code 0, no exec error
and remote output containing no colon, the upload does not fail with an
error — `strings.Split(out, ":")[1]` is out of range, so the call panics
(modelled as `result = none`) and no error value is ever returned. -/
theorem C8_counterexample :
    uploadReturnedError (instanceUploadFromReader 0 none wNoColon none wFileName wDestRel)
        = false ∧
    (instanceUploadFromReader 0 none wNoColon none wFileName wDestRel).result = none := by
  exact ⟨rfl, rfl⟩

/-- Claim C8 as amended: for a non-absolute destination the upload resolves
the working directory and copies into `{cwd}/{dest}`; it fails with an error
when the remote command's exit code is non-zero or the exec reports an
error; but when the exit code is zero and the output contains no colon the
call panics instead of returning an error. -/
theorem C8_upload_resolves_cwd (execExitCode : Nat) (execErr : Option String)
    (cwdOutput : String) (copyErr : Option String) (fileName dest cwd : String)
    (hrel : isAbsPath dest = false) :
    (0 < execExitCode →
      (instanceUploadFromReader execExitCode execErr cwdOutput copyErr fileName dest).result
          = some (some (cwdErrMsg execExitCode)) ∧
      (instanceUploadFromReader execExitCode execErr cwdOutput copyErr fileName dest).copyDest
          = none) ∧
    (∀ e, execExitCode = 0 → execErr = some e →
      (instanceUploadFromReader execExitCode execErr cwdOutput copyErr fileName dest).result
          = some (some e) ∧
      (instanceUploadFromReader execExitCode execErr cwdOutput copyErr fileName dest).copyDest
          = none) ∧
    (getInstanceCWD execExitCode execErr cwdOutput = some (Except.ok cwd) → copyErr = none →
      (instanceUploadFromReader execExitCode execErr cwdOutput copyErr fileName dest).copyDest
          = some (cwd ++ "/" ++ dest) ∧
      (instanceUploadFromReader execExitCode execErr cwdOutput copyErr fileName dest).result
          = some none) ∧
    (execExitCode = 0 → execErr = none → (splitChar colonChar cwdOutput.data).length ≤ 1 →
      (instanceUploadFromReader execExitCode execErr cwdOutput copyErr fileName dest).result
          = none ∧
      (instanceUploadFromReader execExitCode execErr cwdOutput copyErr fileName dest).copyDest
          = none) := by
  refine ⟨?_, ?_, ?_, ?_⟩
  · intro hpos
    have hcwd : getInstanceCWD execExitCode execErr cwdOutput
        = some (Except.error (cwdErrMsg execExitCode)) := by
      simp [getInstanceCWD, hpos]
    simp [instanceUploadFromReader, hrel, hcwd]
  · intro e h0 he
    have hcwd : getInstanceCWD execExitCode execErr cwdOutput
        = some (Except.error e) := by
      simp [getInstanceCWD, h0, he]
    simp [instanceUploadFromReader, hrel, hcwd]
  · intro hcwd hcopy
    simp [instanceUploadFromReader, hrel, hcwd, hcopy]
  · intro h0 he hlen
    have hcwd : getInstanceCWD execExitCode execErr cwdOutput = none := by
      cases hsplit : splitChar colonChar cwdOutput.data with
      | nil => simp [getInstanceCWD, h0, he, hsplit]
      | cons a tl =>
          cases tl with
          | nil => simp [getInstanceCWD, h0, he, hsplit]
          | cons b tl2 => rw [hsplit] at hlen; simp at hlen
    simp [instanceUploadFromReader, hrel, hcwd]

/-- Witness for the amended C8, the spec's example: resolution returning
`/root` and destination `data.txt` copy into `/root/data.txt`. -/
theorem C8_witness :
    (instanceUploadFromReader 0 none wCwdOut none wFileName wDestRel).copyDest
      = some (wRoot ++ "/" ++ wDestRel) :=
  ((C8_upload_resolves_cwd 0 none wCwdOut none wFileName wDestRel wRoot
    (by rfl)).2.2.1 (by rfl) rfl).1

/-- Claim C9: when container creation succeeded but the subsequent
`storage.InstanceCreate` fails, `InstanceNew` returns that error while the
newly built instance remains inserted in the session's instance mapping,
and neither the creation event nor the gauge update happens — no rollback
is attempted. -/
theorem C9_storage_failure_no_rollback (dindImage : String)
    (createResult : CreateContainerOpts → Except String String)
    (session : Session) (conf : InstanceConfig) (pre ip e : String)
    (hpre : sliceTo8 session.id = some pre)
    (hcr : createResult (createOpts dindImage session conf pre) = Except.ok ip)
    (out : NewOutcome)
    (hout : instanceNew dindImage createResult (some e) session conf = some out) :
    out.result = Except.error e ∧
    lookupKey (containerNameOf session conf pre) out.session.instances
      = some (builtInstance dindImage session conf pre ip) ∧
    out.eventEmitted = false ∧ out.gaugesUpdated = false := by
  rw [instanceNew, hpre] at hout
  have h := (Option.some.inj hout).symm
  rw [instanceNewOk, hcr] at h
  rw [h]
  exact ⟨rfl, lookupKey_insertKey_self _ _ _, rfl, rfl⟩

/-- Witness for C9. -/
theorem C9_witness :
    (instanceNewOk wDind wCreateOk (some wStorageErr) wSessionEmpty wConfUcp wPre8).result
      = Except.error wStorageErr :=
  (C9_storage_failure_no_rollback wDind wCreateOk wSessionEmpty wConfUcp wPre8 wIp wStorageErr
    (by rfl) (by rfl) (instanceNewOk wDind wCreateOk (some wStorageErr) wSessionEmpty wConfUcp wPre8)
    (by rfl)).1

/-- Claim C10: `InstanceNew` and `checkHostnameExists` slice
`session.Id[:8]` unconditionally, so they complete normally exactly when
the session id has at least 8 characters; a shorter id makes the slice out
of range and the operation cannot complete normally. -/
theorem C10_short_session_id (dindImage : String)
    (createResult : CreateContainerOpts → Except String String)
    (storageErr : Option String) (session : Session) (conf : InstanceConfig)
    (hostname : String) :
    (session.id.length < 8 →
      instanceNew dindImage createResult storageErr session conf = none ∧
      checkHostnameExists session hostname = none) ∧
    (8 ≤ session.id.length →
      (instanceNew dindImage createResult storageErr session conf).isSome = true ∧
      (checkHostnameExists session hostname).isSome = true) := by
  constructor
  · intro h
    have hs : sliceTo8 session.id = none := by
      simp only [sliceTo8, if_neg (by omega : ¬8 ≤ session.id.length)]
    exact ⟨by simp [instanceNew, hs], by simp [checkHostnameExists, hs]⟩
  · intro h
    have hs : sliceTo8 session.id = some (String.mk (session.id.data.take 8)) := by
      simp only [sliceTo8, if_pos h]
    exact ⟨by simp [instanceNew, hs], by simp [checkHostnameExists, hs]⟩

/-- Witness for C10: a 5-character session id makes both operations fail. -/
theorem C10_witness :
    instanceNew wDind wCreateOk none wSessionShort wConfAuto = none :=
  ((C10_short_session_id wDind wCreateOk none wSessionShort wConfAuto wIname).1 (by decide)).1

end PWD
